import Mathlib

/-!
Shallow embedding of `ue5osc/__init__.py` (class `Communicator`), a thin OSC
client for an Unreal Engine 5 simulation.  Every outbound network effect of a
method is modelled as a trace of `NetOp`s; the blocking receive performed by
`send_and_wait` is one `NetOp.waitReply` element carrying the reply the
environment delivers.  Python numeric values are modelled as rationals: the
only numeric operations the source performs are `float(x)` (identity on the
modelled values) and unary negation, both exact in IEEE 754, so nothing is
lost.  The response synchronizer (`OSCMessageReceiver`, file
`ue5osc/osc_dispatcher.py`) is not part of the sources available here and is
modelled from the specification where needed.
-/

namespace UE5OSC

/-- An OSC message argument as the source sends it: a float, a string, or an
integer.  `pythonosc`'s `send_message` wraps a scalar argument into a
one-element argument list, which is reflected by the `List OscArg` payloads
below. -/
inductive OscArg : Type
  | float (x : ℚ)
  | str (s : String)
  | int (n : ℤ)
  deriving DecidableEq

/-- An outbound OSC message: an address string plus its argument list. -/
structure Msg where
  address : String
  args : List OscArg
  deriving DecidableEq

/-- One observable network action of a `Communicator` method: either an
outbound datagram, or a blocking wait that consumes exactly one inbound reply
(the reply payload is the value the environment delivers). -/
inductive NetOp : Type
  | out (m : Msg)
  | waitReply (reply : List OscArg)
  deriving DecidableEq

/-- Embedding of `self.client.send_message(address, args)`: exactly one
outbound datagram. -/
def sendMessage (address : String) (args : List OscArg) : List NetOp :=
  [NetOp.out ⟨address, args⟩]

/-- Embedding of `Communicator.send_and_wait`: sends `dummy_data = 0.0` to the
address, then blocks on `wait_for_response`, returning the reply unchanged.
The result is the pair (network trace, returned value); `reply` is the value
the environment delivers to the blocked wait. -/
def send_and_wait (address : String) (reply : List OscArg) :
    List NetOp × List OscArg :=
  (sendMessage address [OscArg.float 0] ++ [NetOp.waitReply reply], reply)

/-- Embedding of `Communicator.get_project_name`. -/
def get_project_name (reply : List OscArg) : List NetOp × List OscArg :=
  send_and_wait "/get/project" reply

/-- Embedding of `Communicator.get_location`. -/
def get_location (reply : List OscArg) : List NetOp × List OscArg :=
  send_and_wait "/get/location" reply

/-- Embedding of `Communicator.set_location`. -/
def set_location (x y z : ℚ) : List NetOp :=
  sendMessage "/set/location" [OscArg.float x, OscArg.float y, OscArg.float z]

/-- Embedding of `Communicator.get_rotation`. -/
def get_rotation (reply : List OscArg) : List NetOp × List OscArg :=
  send_and_wait "/get/rotation" reply

/-- Embedding of `Communicator.set_yaw`.  The Python source unpacks
`ue_roll, ue_pitch, _ = self.get_rotation()` - a tuple unpacking that succeeds
only when the reply has exactly three elements - and then sends
`[ue_pitch, ue_roll, yaw]` to `/set/rotation`.  The Boolean result records
whether the unpacking succeeded; on failure the Python call raises before the
second send, so the trace contains only `get_rotation`'s operations. -/
def set_yaw (reply : List OscArg) (yaw : ℚ) : List NetOp × Bool :=
  let g := get_rotation reply
  match g.2 with
  | [ue_roll, ue_pitch, _] =>
      (g.1 ++ sendMessage "/set/rotation" [ue_pitch, ue_roll, OscArg.float yaw],
       true)
  | _ => (g.1, false)

/-- Embedding of `Communicator.move_forward`. -/
def move_forward (amount : ℚ) : List NetOp :=
  sendMessage "/move/forward" [OscArg.float amount]

/-- Embedding of `Communicator.rotate_left`. -/
def rotate_left (degree : ℚ) : List NetOp :=
  sendMessage "/rotate/left" [OscArg.float degree]

/-- Embedding of `Communicator.rotate_right`. -/
def rotate_right (degree : ℚ) : List NetOp :=
  sendMessage "/rotate/right" [OscArg.float degree]

/-- Embedding of `Communicator.move_backward`: note it reuses the
`/move/forward` address with the negated amount. -/
def move_backward (amount : ℚ) : List NetOp :=
  sendMessage "/move/forward" [OscArg.float (-amount)]

/-- Embedding of `Communicator.set_resolution`. -/
def set_resolution (res : String) : List NetOp :=
  sendMessage "/set/resolution" [OscArg.str res]

/-- Embedding of Python `str.rsplit(sep, 1)` for a one-character separator,
over the character list of the string: at most one split, taken at the last
occurrence of the separator.  A string without the separator yields the
one-element list holding the whole string. -/
def rsplitOnce (sep : Char) : List Char → List (List Char)
  | [] => [[]]
  | c :: cs =>
    match rsplitOnce sep cs with
    | [pre, post] => [c :: pre, post]
    | _ => if c = sep then [[], cs] else [c :: cs]

/-- Embedding of Python `"/".join(parts)` over character lists. -/
def joinSlash (parts : List (List Char)) : List Char :=
  (List.intersperse [ '/' ] parts).flatten

/-- The path string `Communicator.save_image` transmits:
`"/".join(filename.rsplit("\\", 1))`. -/
def save_image_path (filename : String) : String :=
  String.mk (joinSlash (rsplitOnce '\\' filename.data))

/-- Embedding of `Communicator.save_image`: one outbound datagram carrying the
(partially) normalized path.  The trailing `sleep(1.5)` is a pure delay with
no network effect and is not part of the trace. -/
def save_image (filename : String) : List NetOp :=
  sendMessage "/save/image" [OscArg.str (save_image_path filename)]

/-- Embedding of `Communicator.reset`: the source comment notes the OSC
library's `send_message` always requires a value, hence the dummy `0.0`. -/
def reset : List NetOp :=
  sendMessage "/reset" [OscArg.float 0]

/-- Embedding of `Communicator.console`. -/
def console (message : String) : List NetOp :=
  sendMessage "/console" [OscArg.str message]

/-- Embedding of `Communicator.switch_camera`. -/
def switch_camera : List NetOp :=
  sendMessage "/switch/view" [OscArg.float 0]

/-- Embedding of `Communicator.quality`: the integer graphics level is sent
unchanged; the source performs no range check. -/
def quality (graphics_level : ℤ) : List NetOp :=
  sendMessage "/quality" [OscArg.int graphics_level]

/-- Modelled from the spec: the pending-reply slot of the response
synchronizer (`OSCMessageReceiver` in `ue5osc/osc_dispatcher.py`, whose source
is not available here).  Two states, EMPTY and FILLED, starting EMPTY. -/
inductive SlotState (α : Type) : Type
  | empty : SlotState α
  | filled (v : α) : SlotState α
  deriving DecidableEq

/-- Modelled from the spec: inbound-message arrival at the synchronizer.  When
EMPTY, the payload is stored and the state becomes FILLED.  The spec leaves
the FILLED-arrival behavior open (overwrite vs. drop); last-write-wins is
written here, but no theorem below depends on that branch. -/
def deliver {α : Type} (s : SlotState α) (v : α) : SlotState α :=
  match s with
  | SlotState.empty => SlotState.filled v
  | SlotState.filled _ => SlotState.filled v

/-- Modelled from the spec: one `wait-for-response` step.  When FILLED, the
stored value is consumed atomically, the state returns to EMPTY, and the value
is returned; when EMPTY the caller blocks (`none`: no value available without
a new arrival). -/
def consume {α : Type} (s : SlotState α) : Option (α × SlotState α) :=
  match s with
  | SlotState.empty => none
  | SlotState.filled v => some (v, SlotState.empty)

/-- Lifecycle actions of `Communicator.close_osc`: `self.server.shutdown()`
then `self.server_thread.join()`. -/
inductive LifeAction : Type
  | shutdownServer : LifeAction
  | joinThread : LifeAction
  deriving DecidableEq

/-- Lifecycle state of a live `Communicator`: whether the listener's dispatch
loop is running and whether the background thread is alive. -/
structure CommState where
  loopRunning : Bool
  threadAlive : Bool
  deriving DecidableEq

/-- Embedding of `Communicator.close_osc`: the ordered actions it performs. -/
def close_osc_actions : List LifeAction :=
  [LifeAction.shutdownServer, LifeAction.joinThread]

/-- Embedding of `Communicator.__exit__`: its three exception-information
arguments are ignored and `close_osc` runs unconditionally, so the actions on
scope exit are `close_osc`'s whether the scope ended normally or with an
error. -/
def exit_actions (_exc_type _exc_value _traceback : Option String) :
    List LifeAction :=
  close_osc_actions

/-- Semantics of one lifecycle action.  `shutdown` stops the dispatch loop;
`join` returns once the thread has exited (the thread exits when the loop is
stopped) and would block forever (`none`) if the loop were still running with
the thread alive. -/
def runAction (s : CommState) : LifeAction → Option CommState
  | LifeAction.shutdownServer => some { s with loopRunning := false }
  | LifeAction.joinThread =>
      if s.loopRunning && s.threadAlive then none
      else some { s with threadAlive := false }

/-- Runs a list of lifecycle actions in order, propagating a block. -/
def runActions (s : CommState) (acts : List LifeAction) : Option CommState :=
  List.foldl (fun os a => Option.bind os (fun st => runAction st a)) (some s)
    acts

/-- Ordered construction events of `Communicator.__init__`: bind the listener
server, bind the outbound client, start the background thread. -/
inductive InitEvent : Type
  | serverBound : InitEvent
  | clientBound : InitEvent
  | threadStarted : InitEvent
  deriving DecidableEq

/-- Embedding of `Communicator.__init__`: the server is bound first, then the
client, and only then is the thread created and started; a raised bind error
propagates and aborts the remaining steps.  The two Booleans say whether each
bind succeeds; the result is the ordered event trace together with whether
construction returned normally. -/
def communicator_init (serverBindOk clientBindOk : Bool) :
    List InitEvent × Bool :=
  if serverBindOk then
    if clientBindOk then
      ([InitEvent.serverBound, InitEvent.clientBound, InitEvent.threadStarted],
       true)
    else ([InitEvent.serverBound], false)
  else ([], false)

/-- Structure eta for strings: rebuilding a string from its character data
gives the string back. -/
theorem string_mk_data (s : String) : String.mk s.data = s := rfl

/-- A list without the separator is returned whole by `rsplitOnce`. -/
theorem rsplitOnce_no_sep (sep : Char) :
    ∀ l : List Char, sep ∉ l → rsplitOnce sep l = [l] := by
  intro l
  induction l with
  | nil => intro _; rfl
  | cons c cs ih =>
    intro h
    have hc : ¬(c = sep) := by
      intro e
      exact h (by simp [e])
    have hcs : sep ∉ cs := by
      intro m
      exact h (List.mem_cons_of_mem c m)
    simp [rsplitOnce, ih hcs, hc]

/-- Splitting at the last separator: when the suffix after a separator is
separator-free, `rsplitOnce` cuts exactly there. -/
theorem rsplitOnce_last (sep : Char) :
    ∀ pre post : List Char, sep ∉ post →
      rsplitOnce sep (pre ++ sep :: post) = [pre, post] := by
  intro pre
  induction pre with
  | nil =>
    intro post h
    simp [rsplitOnce, rsplitOnce_no_sep sep post h]
  | cons c cs ih =>
    intro post h
    simp [rsplitOnce, ih post h]

/-- C1 counterexample: the claim says `save_image "a\\b\\c.png"` transmits
`"a/b/c.png"` with every backslash replaced; the source replaces only the
last backslash (`rsplit("\\", 1)`), transmitting `"a\\b/c.png"` instead. -/
theorem c1_counterexample :
    save_image "a\\b\\c.png" ≠
      sendMessage "/save/image" [OscArg.str "a/b/c.png"] ∧
    save_image "a\\b\\c.png" =
      sendMessage "/save/image" [OscArg.str "a\\b/c.png"] := by
  constructor
  · decide
  · decide

/-- C1 (amended): `save_image` replaces only the last backslash of the
filename with a forward slash before transmission: for any `pre` and any
backslash-free `post`, the path `pre ++ "\\" ++ post` is transmitted as
`pre ++ "/" ++ post` to address `/save/image`; earlier backslashes inside
`pre` are transmitted unchanged. -/
theorem c1_save_image_last_backslash (pre post : List Char)
    (h : '\\' ∉ post) :
    save_image (String.mk (pre ++ '\\' :: post)) =
      sendMessage "/save/image" [OscArg.str (String.mk (pre ++ '/' :: post))] := by
  simp [save_image, save_image_path, joinSlash,
    rsplitOnce_last '\\' pre post h, List.intersperse]

/-- C1 witness: the amended theorem applied at `pre = "a\\b"`,
`post = "c.png"`. -/
theorem c1_save_image_last_backslash_witness :
    '\\' ∉ "c.png".data ∧
      save_image (String.mk ("a\\b".data ++ '\\' :: "c.png".data)) =
        sendMessage "/save/image"
          [OscArg.str (String.mk ("a\\b".data ++ '/' :: "c.png".data))] :=
  ⟨by decide, c1_save_image_last_backslash "a\\b".data "c.png".data (by decide)⟩

/-- C2: for every rotation reply `(a, b, c)` and yaw `y`, `set_yaw` issues
exactly the `/get/rotation` request-response operations (one outbound message,
one blocking reply wait) followed by one fire-and-forget `/set/rotation` send
whose first two arguments are the freshly retrieved pitch and roll - the
values the source itself binds as `ue_pitch` (second reply component) and
`ue_roll` (first reply component) - and whose third argument is `y`. -/
theorem c2_set_yaw_two_ops (a b c y : ℚ) :
    set_yaw [OscArg.float a, OscArg.float b, OscArg.float c] y =
      ((get_rotation [OscArg.float a, OscArg.float b, OscArg.float c]).1 ++
        sendMessage "/set/rotation"
          [OscArg.float b, OscArg.float a, OscArg.float y], true) ∧
    (get_rotation [OscArg.float a, OscArg.float b, OscArg.float c]).1 =
      [NetOp.out ⟨"/get/rotation", [OscArg.float 0]⟩,
       NetOp.waitReply [OscArg.float a, OscArg.float b, OscArg.float c]] :=
  ⟨rfl, rfl⟩

/-- One fire-and-forget trace: exactly one outbound datagram, with a
non-empty argument list. -/
def oneDatagramNonEmpty (t : List NetOp) : Prop :=
  ∃ m : Msg, t = [NetOp.out m] ∧ m.args ≠ []

/-- C3: every fire-and-forget operation emits exactly one outbound datagram
at its documented address with the documented, non-empty argument shape; in
particular `move_forward a` sends `/move/forward` with `[float a]`,
`move_backward a` sends `/move/forward` with `[float (-a)]`, and `reset`
sends `/reset` with a dummy float. -/
theorem c3_fire_and_forget (a d x y z : ℚ) (q : ℤ) (res msg fn : String) :
    move_forward a = [NetOp.out ⟨"/move/forward", [OscArg.float a]⟩] ∧
    move_backward a = [NetOp.out ⟨"/move/forward", [OscArg.float (-a)]⟩] ∧
    reset = [NetOp.out ⟨"/reset", [OscArg.float 0]⟩] ∧
    rotate_left d = [NetOp.out ⟨"/rotate/left", [OscArg.float d]⟩] ∧
    rotate_right d = [NetOp.out ⟨"/rotate/right", [OscArg.float d]⟩] ∧
    set_location x y z =
      [NetOp.out ⟨"/set/location",
        [OscArg.float x, OscArg.float y, OscArg.float z]⟩] ∧
    set_resolution res = [NetOp.out ⟨"/set/resolution", [OscArg.str res]⟩] ∧
    console msg = [NetOp.out ⟨"/console", [OscArg.str msg]⟩] ∧
    switch_camera = [NetOp.out ⟨"/switch/view", [OscArg.float 0]⟩] ∧
    quality q = [NetOp.out ⟨"/quality", [OscArg.int q]⟩] ∧
    save_image fn =
      [NetOp.out ⟨"/save/image", [OscArg.str (save_image_path fn)]⟩] ∧
    oneDatagramNonEmpty (move_forward a) ∧
    oneDatagramNonEmpty (move_backward a) ∧
    oneDatagramNonEmpty reset ∧
    oneDatagramNonEmpty (rotate_left d) ∧
    oneDatagramNonEmpty (rotate_right d) ∧
    oneDatagramNonEmpty (set_location x y z) ∧
    oneDatagramNonEmpty (set_resolution res) ∧
    oneDatagramNonEmpty (console msg) ∧
    oneDatagramNonEmpty switch_camera ∧
    oneDatagramNonEmpty (quality q) ∧
    oneDatagramNonEmpty (save_image fn) := by
  refine ⟨rfl, rfl, rfl, rfl, rfl, rfl, rfl, rfl, rfl, rfl, rfl,
    ?_, ?_, ?_, ?_, ?_, ?_, ?_, ?_, ?_, ?_, ?_⟩ <;>
    exact ⟨_, rfl, by simp⟩

/-- C4: for every address and every reply the environment delivers,
`send_and_wait` first sends exactly one outbound message to that address with
the placeholder argument `0.0`, then blocks for exactly one reply, and returns
that reply unchanged; `get_project_name`, `get_location` and `get_rotation`
are exactly `send_and_wait` at their addresses. -/
theorem c4_send_and_wait (address : String) (reply : List OscArg) :
    send_and_wait address reply =
      ([NetOp.out ⟨address, [OscArg.float 0]⟩, NetOp.waitReply reply],
       reply) ∧
    get_project_name reply = send_and_wait "/get/project" reply ∧
    get_location reply = send_and_wait "/get/location" reply ∧
    get_rotation reply = send_and_wait "/get/rotation" reply :=
  ⟨rfl, rfl, rfl, rfl⟩

/-- C5: a reply delivered to an EMPTY synchronizer slot is returned verbatim
by the next wait-for-response, which transitions the slot back to EMPTY; a
further wait-for-response on the EMPTY slot blocks (`none`) instead of
returning the consumed value again.  The synchronizer is modelled from the
spec (its source file is not available). -/
theorem c5_round_trip (α : Type) (v : α) :
    consume (deliver SlotState.empty v) = some (v, SlotState.empty) ∧
    consume (SlotState.empty : SlotState α) = none :=
  ⟨rfl, rfl⟩

/-- C6: scope exit performs `close_osc`'s actions regardless of the exception
information (normal exit or error), and running those actions from any live
state stops the dispatch loop and terminates (join does not block) with the
background thread fully exited. -/
theorem c6_scope_exit (ty val tb : Option String) (s : CommState) :
    exit_actions ty val tb = close_osc_actions ∧
    runActions s close_osc_actions =
      some { loopRunning := false, threadAlive := false } :=
  ⟨rfl, rfl⟩

/-- C7: construction binds the server, binds the client and starts the
background thread, in that order, exactly when both binds succeed; when
either bind fails, construction does not return normally and the thread-start
event never occurs, so no orphaned thread is left. -/
theorem c7_init (serverBindOk clientBindOk : Bool) :
    (communicator_init serverBindOk clientBindOk =
        ([InitEvent.serverBound, InitEvent.clientBound,
          InitEvent.threadStarted], true) ↔
      (serverBindOk = true ∧ clientBindOk = true)) ∧
    ((communicator_init serverBindOk clientBindOk).2 = true ↔
      (serverBindOk = true ∧ clientBindOk = true)) ∧
    (InitEvent.threadStarted ∈ (communicator_init serverBindOk clientBindOk).1 ↔
      (serverBindOk = true ∧ clientBindOk = true)) := by
  cases serverBindOk <;> cases clientBindOk <;> refine ⟨?_, ?_, ?_⟩ <;> decide

/-- C8: for every integer `n`, `quality n` sends exactly one message to
`/quality` carrying `n` unchanged; no 0-4 range check exists, so out-of-range
values such as 99 and -1 are transmitted rather than rejected. -/
theorem c8_quality (n : ℤ) :
    quality n = [NetOp.out ⟨"/quality", [OscArg.int n]⟩] ∧
    quality 99 = [NetOp.out ⟨"/quality", [OscArg.int 99]⟩] ∧
    quality (-1) = [NetOp.out ⟨"/quality", [OscArg.int (-1)]⟩] :=
  ⟨rfl, rfl, rfl⟩

/-- C9: on a filename without any backslash, the normalization in
`save_image` is the identity - the path is transmitted unchanged. -/
theorem c9_no_backslash_identity (s : String) (h : '\\' ∉ s.data) :
    save_image s = sendMessage "/save/image" [OscArg.str s] := by
  simp [save_image, save_image_path, joinSlash,
    rsplitOnce_no_sep '\\' s.data h, List.intersperse, string_mk_data]

/-- C9 witness: the theorem applied at a concrete forward-slash path. -/
theorem c9_no_backslash_identity_witness :
    '\\' ∉ "images/run1/shot.png".data ∧
      save_image "images/run1/shot.png" =
        sendMessage "/save/image" [OscArg.str "images/run1/shot.png"] :=
  ⟨by decide, c9_no_backslash_identity "images/run1/shot.png" (by decide)⟩

/-- C10: when the `/get/rotation` reply does not have exactly three elements,
`set_yaw` fails at the tuple unpacking: its trace is exactly `get_rotation`'s
two operations, no `/set/rotation` message is sent, and the failure flag is
set. -/
theorem c10_set_yaw_arity (reply : List OscArg) (y : ℚ)
    (h : reply.length ≠ 3) :
    set_yaw reply y =
      ([NetOp.out ⟨"/get/rotation", [OscArg.float 0]⟩,
        NetOp.waitReply reply], false) := by
  rcases reply with _ | ⟨a, _ | ⟨b, _ | ⟨c, _ | ⟨d, t⟩⟩⟩⟩
  · rfl
  · rfl
  · rfl
  · exact absurd rfl h
  · rfl

/-- C10 witness: the theorem applied at a two-element reply. -/
theorem c10_set_yaw_arity_witness :
    ([OscArg.float 1, OscArg.float 2] : List OscArg).length ≠ 3 ∧
      set_yaw [OscArg.float 1, OscArg.float 2] 90 =
        ([NetOp.out ⟨"/get/rotation", [OscArg.float 0]⟩,
          NetOp.waitReply [OscArg.float 1, OscArg.float 2]], false) :=
  ⟨by decide, c10_set_yaw_arity [OscArg.float 1, OscArg.float 2] 90 (by decide)⟩

end UE5OSC
